import Mathlib

/-!
Shallow embedding of `plantcv/plantcv/pseudocolor.py` (function `pseudocolor`,
called `compose` in the specification) together with the pieces of its
surrounding libraries that its observable behaviour depends on.

Images are 2-D grids of integer samples (`List (List Int)`); a numpy array of
arbitrary dimension is the inductive `NDArray`.  The matplotlib figure that
`pseudocolor` returns is modelled by the `Composite` record: it stores the
background layer and its palette, the overlay image, the masked-array
hidden-pixel flags built at line 84, the user colormap, the title and the
axes flag.  In-place mutation of the caller's `gray_img` buffer (the fancy
assignments at lines 53 and 56 write through to the argument array) is made
explicit: `compose` returns, next to its result, the final contents of the
caller's field and mask buffers.
-/

set_option linter.unusedVariables false

namespace Pseudocolor

/-- A single-channel image: a list of rows of integer samples. -/
abbrev Image := List (List Int)

/-- A numpy array of arbitrary dimension (nested lists of scalars). -/
inductive NDArray where
  | scalar (v : Int)
  | arr (elems : List NDArray)

/-- `len(np.shape(a))`: the nesting depth along first elements, as numpy
reports it for well-formed (rectangular) nested data. -/
def ndim : NDArray → Nat
  | .scalar _ => 0
  | .arr [] => 1
  | .arr (x :: _) => 1 + ndim x

/-- The integer stored in a scalar cell (`0` for ill-formed data). -/
def cellVal : NDArray → Int
  | .scalar v => v
  | .arr _ => 0

/-- One row of a 2-D array as a list of samples. -/
def rowVals : NDArray → List Int
  | .scalar _ => []
  | .arr es => es.map cellVal

/-- View a 2-D `NDArray` as an `Image`. -/
def toGrid : NDArray → Image
  | .scalar _ => []
  | .arr rows => rows.map rowVals

/-- Rebuild the 2-D `NDArray` holding the entries of a grid; used to express
the contents of the caller's buffer after in-place writes. -/
def ofGrid (g : Image) : NDArray :=
  .arr (g.map (fun row => .arr (row.map .scalar)))

/-- Sample of `g` at row `i`, column `j` (numpy-style 0 default outside). -/
def entryAt (g : Image) (i j : Nat) : Int :=
  (g.getD i []).getD j 0

/-- Flag of a boolean grid at row `i`, column `j` (`false` outside). -/
def boolAt (g : List (List Bool)) (i j : Nat) : Bool :=
  (g.getD i []).getD j false

/-- `g` is a rectangular grid with `r` rows and `c` columns. -/
def IsRect (g : Image) (r c : Nat) : Prop :=
  g.length = r ∧ ∀ row ∈ g, row.length = c

instance (g : Image) (r c : Nat) : Decidable (IsRect g r c) := by
  unfold IsRect; infer_instance

/-- A point of a contour, `(col, row)` in OpenCV order. -/
abbrev Point := Nat × Nat

/-- An axis-aligned rectangle `(x, y, w, h)`. -/
structure Rect where
  x : Nat
  y : Nat
  w : Nat
  h : Nat
deriving DecidableEq, Repr

/-- `cv2.boundingRect(obj)` (line 64): the minimal upright rectangle
enclosing the contour points. -/
def boundingRect : List Point → Rect
  | [] => ⟨0, 0, 0, 0⟩
  | p :: ps =>
    let xmin := ps.foldl (fun a q => min a q.1) p.1
    let ymin := ps.foldl (fun a q => min a q.2) p.2
    let xmax := ps.foldl (fun a q => max a q.1) p.1
    let ymax := ps.foldl (fun a q => max a q.2) p.2
    ⟨xmin, ymin, xmax - xmin + 1, ymax - ymin + 1⟩

/-- `gray_img[gray_img > max_value] = max_value` (line 53). -/
def clampUpper (maxValue : Int) (img : Image) : Image :=
  img.map (List.map (fun v => if v > maxValue then maxValue else v))

/-- `gray_img[gray_img < min_value] = min_value` (line 56). -/
def clampLower (minValue : Int) (img : Image) : Image :=
  img.map (List.map (fun v => if v < minValue then minValue else v))

/-- Line 51 reads `if max != 255:` where `max` is the Python BUILTIN
function, not the `max_value` parameter; a function never equals `255`, so
the guard is true on every call. -/
def maxBuiltinNe255 : Bool := true

/-- Lines 51-56: the range-clamp step.  The upper clamp runs whenever the
(always-true) `max != 255` guard holds; the lower clamp runs only when
`min_value != 0`. -/
def clampStep (minValue maxValue : Int) (img : Image) : Image :=
  let img1 := if maxBuiltinNe255 then clampUpper maxValue img else img
  if minValue ≠ 0 then clampLower minValue img1 else img1

/-- Python slicing `a[y:y+h, x:x+w]` (lines 68 and 79): out-of-range parts
of the window are silently clipped. -/
def slice2d (img : Image) (y h x w : Nat) : Image :=
  ((img.drop y).take h).map (fun row => (row.drop x).take w)

/-- One bordered row: `left` constant samples, the row, `right` constants. -/
def padRow (left right : Nat) (v : Int) (row : List Int) : List Int :=
  List.replicate left v ++ row ++ List.replicate right v

/-- `cv2.copyMakeBorder(img, top, bottom, left, right, BORDER_CONSTANT,
value)` (lines 75 and 80): extend the image by constant borders. -/
def copyMakeBorder (img : Image) (top bottom left right : Nat) (v : Int) : Image :=
  let cols := (img.headD []).length
  let blank := List.replicate (left + cols + right) v
  List.replicate top blank ++ img.map (padRow left right v) ++ List.replicate bottom blank

/-- Lines 60-81: when a contour is supplied, crop field and mask to its
bounding rectangle and extend both by the `int(w / 5)` / `int(h / 5)`
buffer with zero-valued borders; otherwise both pass through unchanged.
(The `cv2.rectangle` call at line 65 draws on `np.copy(gray_img)`, which is
then discarded, so it has no observable effect.) -/
def regionRestrict (g m : Image) (obj : Option (List Point)) : Image × Image :=
  match obj with
  | none => (g, m)
  | some pts =>
    let r := boundingRect pts
    let cropImg := slice2d g r.y r.h r.x r.w
    let offsetx := r.w / 5
    let offsety := r.h / 5
    let g2 := copyMakeBorder cropImg offsety offsety offsetx offsetx 0
    let cropMask := slice2d m r.y r.h r.x r.w
    let m2 := copyMakeBorder cropMask offsety offsety offsetx offsetx 0
    (g2, m2)

/-- Line 84, `np.ma.array(gray_img, mask=~mask.astype(np.bool))`: the
per-pixel hidden flags of the masked overlay, true exactly where the
user mask is zero. -/
def maHide (m : Image) : List (List Bool) :=
  m.map (List.map (fun v => v == 0))

/-- A layer of the same shape as `g` holding `v` everywhere
(`np.zeros(np.shape(g))`, possibly followed by `+= 255`). -/
def constLike (g : Image) (v : Int) : Image :=
  g.map (List.map (fun _ => v))

/-- Lines 87-105: resolve the background layer and its palette from the
`background` selector, or fail for an unsupported selector. -/
def resolveBackground (background : String) (g : Image) :
    Except String (Image × String) :=
  if background = "black" then
    .ok (constLike g 0, "gray")
  else if background = "white" then
    .ok ((constLike g 0).map (List.map (fun v => v + 255)), "gray_r")
  else if background = "image" then
    .ok (g, "gray")
  else
    .error ("Background type " ++ background ++
      " is not supported. Please use 'white', 'black', or 'image'.")

/-- The figure `pseudocolor` returns: background layer and palette (absent
on the maskless path), overlay image, masked-array hidden flags (absent on
the maskless path), user colormap, title, colorbar and axes flags. -/
structure Composite where
  bkgImg : Option Image
  bkgCmap : Option String
  overlay : Image
  overlayHidden : Option (List (List Bool))
  cmap : Option String
  title : String
  colorbar : Bool
  axesShown : Bool
deriving DecidableEq, Repr

/-- What `pseudocolor` leaves behind: the returned figure (or the fatal
error message) plus the final contents of the caller's buffers. -/
structure ComposeOutcome where
  result : Except String Composite
  callerField : NDArray
  callerMask : Option Image

/-- `fatal_error` of `plantcv.plantcv` is imported at line 9 but its body is
not part of this repository.  Modelled from the spec: validation failures
are "raised synchronously at the point of detection", fatal, "no partial
composite is ever exposed to the caller" — an `Except.error` carrying the
message. -/
def fatalError (msg : String) : Except String Composite :=
  .error msg

/-- The `pseudocolor` function (lines 12-154), spec name `compose`.
Arguments `dpi` and `path` only steer the external renderer and the debug
branches (lines 126-130, 148-152), which render the already-built figure;
they are omitted.  The global `params.device` counter (line 46) feeds only
debug file naming and is omitted as well. -/
def compose (field : NDArray) (mask : Option Image) (cmap : Option String)
    (background : String) (minValue maxValue : Int) (obj : Option (List Point))
    (axes : Bool) : ComposeOutcome :=
  if ndim field ≠ 2 then
    -- lines 49-50: not grayscale, abort before touching any buffer
    ⟨fatalError "Image must be grayscale.", field, mask⟩
  else
    -- lines 51-56: the clamp writes through to the caller's array
    let g1 := clampStep minValue maxValue (toGrid field)
    let fieldAfter := ofGrid g1
    match mask with
    | none =>
      -- lines 131-154: no mask, no background resolution
      ⟨.ok ⟨none, none, g1, none, cmap, "Pseudocolored image", true, axes⟩,
        fieldAfter, none⟩
    | some m =>
      let gm := regionRestrict g1 m obj
      let hidden := maHide gm.2
      match resolveBackground background gm.1 with
      | .error e => ⟨fatalError e, fieldAfter, some m⟩
      | .ok bc =>
        ⟨.ok ⟨some bc.1, some bc.2, gm.1, some hidden, cmap,
            "Pseudocolored image", true, axes⟩,
          fieldAfter, some m⟩

/-- A rendered pixel: either the overlay's colorized sample or the
background layer's sample — a tagged choice, never a blend. -/
inductive Pixel where
  | overlayPix (cmap : Option String) (v : Int)
  | bkgPix (cmap : Option String) (v : Int)
deriving DecidableEq, Repr

/-- Modelled from the spec: the external canvas renderer draws the
background `imshow` first and the masked-array overlay `imshow` on top
(lines 109-111); a masked (hidden) overlay pixel lets the background show
through, an unmasked one occludes it — binary occlusion, no partial
transparency.  On the maskless path the overlay alone is drawn. -/
def renderAt (c : Composite) (i j : Nat) : Pixel :=
  match c.overlayHidden with
  | none => .overlayPix c.cmap (entryAt c.overlay i j)
  | some hid =>
    if boolAt hid i j then
      .bkgPix c.bkgCmap (entryAt (c.bkgImg.getD []) i j)
    else
      .overlayPix c.cmap (entryAt c.overlay i j)

/-- The spec's own words for the range clamp, for comparison with the
code's `clampStep`: "any sample `> max_value` is set to `max_value`; any
sample `< min_value` is set to `min_value`". -/
def specClamp (minValue maxValue v : Int) : Int :=
  if v > maxValue then maxValue else if v < minValue then minValue else v

/-- `true` iff the outcome carries a composite rather than a fatal error. -/
def resultIsOk (o : ComposeOutcome) : Bool :=
  match o.result with
  | .ok _ => true
  | .error _ => false

/-- The overlay image of a successful outcome. -/
def resultOverlay (o : ComposeOutcome) : Option Image :=
  match o.result with
  | .ok c => some c.overlay
  | .error _ => none

/-! ## General lemmas about the embedded operations -/

theorem map_grid_congr {f g : Int → Int} (h : ∀ v, f v = g v) (img : Image) :
    img.map (List.map f) = img.map (List.map g) := by
  have hfg : f = g := funext h
  rw [hfg]

theorem map_map_grid (f g : Int → Int) (img : Image) :
    (img.map (List.map f)).map (List.map g) = img.map (List.map (g ∘ f)) := by
  rw [List.map_map]
  apply List.map_congr_left
  intro row _
  exact List.map_map g f row

/-- The always-true `max != 255` guard eliminated: the clamp step is the
upper clamp, followed by the lower clamp when `min_value != 0`. -/
theorem clampStep_eq (minValue maxValue : Int) (img : Image) :
    clampStep minValue maxValue img =
      if minValue ≠ 0 then clampLower minValue (clampUpper maxValue img)
      else clampUpper maxValue img := rfl

/-- `compose` on a 2-D field with no mask, shape guard discharged. -/
theorem compose_none_eq (field : NDArray) (cmap : Option String)
    (background : String) (minValue maxValue : Int) (obj : Option (List Point))
    (axes : Bool) (h2 : ndim field = 2) :
    compose field none cmap background minValue maxValue obj axes =
      ⟨.ok ⟨none, none, clampStep minValue maxValue (toGrid field), none,
          cmap, "Pseudocolored image", true, axes⟩,
        ofGrid (clampStep minValue maxValue (toGrid field)), none⟩ := by
  unfold compose
  rw [if_neg (by simp [h2])]

/-- `compose` on a 2-D field with a mask, shape guard discharged. -/
theorem compose_some_eq (field : NDArray) (m : Image) (cmap : Option String)
    (background : String) (minValue maxValue : Int) (obj : Option (List Point))
    (axes : Bool) (h2 : ndim field = 2) :
    compose field (some m) cmap background minValue maxValue obj axes =
      (match resolveBackground background
          (regionRestrict (clampStep minValue maxValue (toGrid field)) m obj).1 with
       | .error e =>
         ⟨.error e, ofGrid (clampStep minValue maxValue (toGrid field)), some m⟩
       | .ok bc =>
         ⟨.ok ⟨some bc.1, some bc.2,
             (regionRestrict (clampStep minValue maxValue (toGrid field)) m obj).1,
             some (maHide
               (regionRestrict (clampStep minValue maxValue (toGrid field)) m obj).2),
             cmap, "Pseudocolored image", true, axes⟩,
           ofGrid (clampStep minValue maxValue (toGrid field)), some m⟩) := by
  unfold compose
  rw [if_neg (by simp [h2])]
  rfl

theorem resolveBackground_invalid (bg : String) (g : Image)
    (hb : bg ≠ "black") (hw : bg ≠ "white") (hi : bg ≠ "image") :
    resolveBackground bg g =
      .error ("Background type " ++ bg ++
        " is not supported. Please use 'white', 'black', or 'image'.") := by
  unfold resolveBackground
  rw [if_neg hb, if_neg hw, if_neg hi]

/-! ## Claim C1 -/

/-- Claim C1 as stated is false: with the default bounds
`min_value = 0, max_value = 255`, the sample `-5` is strictly below
`min_value` yet the composed overlay still holds `-5`, and the caller's
buffer still holds `-5` — the lower comparison was skipped because
`min_value != 0` failed. -/
theorem clamp_default_min_not_applied_cex :
    resultOverlay (compose (ofGrid [[-5]]) none none "image" 0 255 none true)
        = some [[-5]]
    ∧ toGrid (compose (ofGrid [[-5]]) none none "image" 0 255 none true).callerField
        = [[-5]]
    ∧ (-5 : Int) < 0 ∧ (-5 : Int) ≠ 0 :=
  ⟨rfl, rfl, by decide, by decide⟩

/-- Claim C1, amended: the upper comparison is applied on every call (the
`max != 255` guard compares the builtin `max` and always holds), so every
sample strictly above `max_value` becomes `max_value`; the lower comparison
is applied only when `min_value ≠ 0`, in which case every sample strictly
below `min_value` becomes `min_value` — with the default `min_value = 0`
the lower clamp is skipped and samples below `0` pass through. -/
theorem clamp_amended_characterization (img : Image) (minv maxv : Int)
    (h : minv ≤ maxv) :
    clampStep minv maxv img =
      img.map (List.map (fun v =>
        if minv ≠ 0 then specClamp minv maxv v
        else if v > maxv then maxv else v)) := by
  rw [clampStep_eq]
  by_cases h0 : minv ≠ 0
  · rw [if_pos h0]
    unfold clampLower clampUpper
    rw [map_map_grid]
    apply map_grid_congr
    intro v
    simp only [Function.comp, if_pos h0]
    unfold specClamp
    split_ifs <;> omega
  · rw [if_neg h0]
    unfold clampUpper
    apply map_grid_congr
    intro v
    rw [if_neg h0]

/-- Claim C1 witness: the amended characterization at a concrete input. -/
theorem clamp_amended_characterization_witness :
    (10 : Int) ≤ 20 ∧
    clampStep 10 20 [[5, 25, 15]] =
      [[5, 25, 15]].map (List.map (fun v =>
        if (10 : Int) ≠ 0 then specClamp 10 20 v
        else if v > 20 then (20 : Int) else v)) :=
  ⟨by decide, clamp_amended_characterization [[5, 25, 15]] 10 20 (by decide)⟩

/-! ## Claim C2 -/

/-- Claim C2 as stated is false: with no mask supplied and the unsupported
background `"red"`, the call does not raise — it returns a composite. -/
theorem invalid_background_no_mask_cex :
    resultIsOk (compose (ofGrid [[1]]) none none "red" 0 255 none true) = true :=
  rfl

/-- Claim C2, amended: only when a mask is supplied does a background
selector outside `{"image","white","black"}` raise the unsupported-
background error naming the offending value (and no composite is
returned); with no mask the background selector is never validated and
the call returns a composite. -/
theorem invalid_background_with_mask (field : NDArray) (m : Image)
    (cmap : Option String) (bg : String) (minv maxv : Int)
    (obj : Option (List Point)) (axes : Bool) (h2 : ndim field = 2)
    (hb : bg ≠ "black") (hw : bg ≠ "white") (hi : bg ≠ "image") :
    (compose field (some m) cmap bg minv maxv obj axes).result =
      .error ("Background type " ++ bg ++
        " is not supported. Please use 'white', 'black', or 'image'.")
    ∧ resultIsOk (compose field none cmap bg minv maxv obj axes) = true := by
  rw [compose_some_eq field m cmap bg minv maxv obj axes h2,
    compose_none_eq field cmap bg minv maxv obj axes h2]
  rw [resolveBackground_invalid bg _ hb hw hi]
  exact ⟨rfl, rfl⟩

/-- Claim C2 witness: the amended claim at a concrete input. -/
theorem invalid_background_with_mask_witness :
    ndim (ofGrid [[1]]) = 2 ∧ "red" ≠ "black" ∧ "red" ≠ "white" ∧ "red" ≠ "image" ∧
    ((compose (ofGrid [[1]]) (some [[1]]) none "red" 0 255 none true).result =
      .error ("Background type " ++ "red" ++
        " is not supported. Please use 'white', 'black', or 'image'.")
    ∧ resultIsOk (compose (ofGrid [[1]]) none none "red" 0 255 none true) = true) :=
  ⟨rfl, by decide, by decide, by decide,
    invalid_background_with_mask (ofGrid [[1]]) [[1]] none "red" 0 255 none true
      rfl (by decide) (by decide) (by decide)⟩

/-! ## Claim C3 -/

/-- Claim C3 as stated is false: the clamp writes through to the caller's
field buffer.  Starting from the buffer holding `[[300]]`, after a call
with the default bounds the caller's buffer holds `[[255]]`. -/
theorem caller_field_mutated_cex :
    toGrid (ofGrid [[300]]) = [[300]]
    ∧ toGrid (compose (ofGrid [[300]]) none none "image" 0 255 none true).callerField
        = [[255]]
    ∧ ([[(300 : Int)]] : Image) ≠ [[(255 : Int)]] :=
  ⟨rfl, rfl, by decide⟩

/-- Claim C3, amended: the caller's mask (and roi) buffers are never
mutated, but `compose` mutates the caller's field buffer in place: after
any call on a 2-D field the caller's field holds exactly the clamped
samples (only the crop step works on copies). -/
theorem caller_buffer_effect (field : NDArray) (mask : Option Image)
    (cmap : Option String) (bg : String) (minv maxv : Int)
    (obj : Option (List Point)) (axes : Bool) (h2 : ndim field = 2) :
    (compose field mask cmap bg minv maxv obj axes).callerField
        = ofGrid (clampStep minv maxv (toGrid field))
    ∧ (compose field mask cmap bg minv maxv obj axes).callerMask = mask := by
  cases mask with
  | none =>
    rw [compose_none_eq field cmap bg minv maxv obj axes h2]
    exact ⟨rfl, rfl⟩
  | some m =>
    rw [compose_some_eq field m cmap bg minv maxv obj axes h2]
    cases hres : resolveBackground bg
        (regionRestrict (clampStep minv maxv (toGrid field)) m obj).1 with
    | error e => exact ⟨rfl, rfl⟩
    | ok bc => exact ⟨rfl, rfl⟩

/-- Claim C3 witness: the amended claim at a concrete input. -/
theorem caller_buffer_effect_witness :
    ndim (ofGrid [[300]]) = 2 ∧
    ((compose (ofGrid [[300]]) none none "image" 0 255 none true).callerField
        = ofGrid (clampStep 0 255 [[300]])
    ∧ (compose (ofGrid [[300]]) none none "image" 0 255 none true).callerMask
        = none) :=
  ⟨rfl, caller_buffer_effect (ofGrid [[300]]) none none "image" 0 255 none true rfl⟩

/-! ## Claim C4 -/

/-- Claim C4: a field whose number of dimensions is not exactly 2 makes
`compose` fail fatally with the "Image must be grayscale." error; no
composite is produced and no buffer is touched. -/
theorem non_grayscale_shape_error (field : NDArray) (mask : Option Image)
    (cmap : Option String) (bg : String) (minv maxv : Int)
    (obj : Option (List Point)) (axes : Bool) (h : ndim field ≠ 2) :
    (compose field mask cmap bg minv maxv obj axes).result =
      .error "Image must be grayscale."
    ∧ (compose field mask cmap bg minv maxv obj axes).callerField = field
    ∧ (compose field mask cmap bg minv maxv obj axes).callerMask = mask := by
  unfold compose
  rw [if_pos h]
  exact ⟨rfl, rfl, rfl⟩

/-- Claim C4 witness: a 0-dimensional and a 3-dimensional field both fail
with the grayscale error. -/
theorem non_grayscale_shape_error_witness :
    ndim (NDArray.scalar 7) ≠ 2 ∧
    ((compose (NDArray.scalar 7) none none "image" 0 255 none true).result =
      .error "Image must be grayscale."
    ∧ (compose (NDArray.scalar 7) none none "image" 0 255 none true).callerField
        = NDArray.scalar 7
    ∧ (compose (NDArray.scalar 7) none none "image" 0 255 none true).callerMask
        = none) :=
  ⟨by decide, non_grayscale_shape_error (NDArray.scalar 7) none none "image"
    0 255 none true (by decide)⟩

/-! ## Claim C9 -/

/-- Claim C9: the range clamp is idempotent — for any bounds `a ≤ b`,
applying the clamp step a second time to the already-clamped field with
the same bounds changes nothing. -/
theorem clamp_idempotent (img : Image) (a b : Int) (hab : a ≤ b) :
    clampStep a b (clampStep a b img) = clampStep a b img := by
  simp only [clampStep_eq]
  by_cases h0 : a ≠ 0
  · rw [if_pos h0, if_pos h0]
    unfold clampLower clampUpper
    simp only [map_map_grid]
    apply map_grid_congr
    intro v
    simp only [Function.comp]
    split_ifs <;> omega
  · rw [if_neg h0, if_neg h0]
    unfold clampUpper
    simp only [map_map_grid]
    apply map_grid_congr
    intro v
    simp only [Function.comp]
    split_ifs <;> omega

/-- Claim C9 witness: idempotence at a concrete field and bounds. -/
theorem clamp_idempotent_witness :
    (10 : Int) ≤ 20 ∧
    clampStep 10 20 (clampStep 10 20 [[5, 30, 15]]) = clampStep 10 20 [[5, 30, 15]] :=
  ⟨by decide, clamp_idempotent [[5, 30, 15]] 10 20 (by decide)⟩

/-! ## Shape and border lemmas for the crop-and-pad step -/

theorem isRect_map (g : Image) (r c : Nat) (f : Int → Int) (h : IsRect g r c) :
    IsRect (g.map (List.map f)) r c := by
  obtain ⟨hlen, hrow⟩ := h
  constructor
  · rw [List.length_map, hlen]
  · intro row hmem
    obtain ⟨row0, hrow0, rfl⟩ := List.mem_map.mp hmem
    rw [List.length_map]
    exact hrow row0 hrow0

theorem clampStep_isRect (minv maxv : Int) (g : Image) (r c : Nat)
    (h : IsRect g r c) : IsRect (clampStep minv maxv g) r c := by
  rw [clampStep_eq]
  unfold clampLower clampUpper
  split_ifs
  · exact isRect_map _ _ _ _ (isRect_map _ _ _ _ h)
  · exact isRect_map _ _ _ _ h

theorem slice2d_isRect (g : Image) (R C y h x w : Nat) (hg : IsRect g R C)
    (hy : y + h ≤ R) (hx : x + w ≤ C) : IsRect (slice2d g y h x w) h w := by
  obtain ⟨hlen, hrow⟩ := hg
  constructor
  · unfold slice2d
    rw [List.length_map, List.length_take, List.length_drop, hlen]
    omega
  · intro row hmem
    unfold slice2d at hmem
    obtain ⟨row0, hrow0, rfl⟩ := List.mem_map.mp hmem
    have hr0 : row0 ∈ g := List.mem_of_mem_drop (List.mem_of_mem_take hrow0)
    rw [List.length_take, List.length_drop, hrow row0 hr0]
    omega

theorem padRow_length (left right : Nat) (v : Int) (row : List Int) :
    (padRow left right v row).length = left + row.length + right := by
  unfold padRow
  rw [List.length_append, List.length_append, List.length_replicate,
    List.length_replicate]

theorem copyMakeBorder_isRect (g : Image) (r c t b l rr : Nat) (v : Int)
    (hg : IsRect g r c) (hr : 0 < r) :
    IsRect (copyMakeBorder g t b l rr v) (t + r + b) (l + c + rr) := by
  obtain ⟨hlen, hrow⟩ := hg
  have hcols : (g.headD []).length = c := by
    cases g with
    | nil => simp at hlen; omega
    | cons row rest => exact hrow row (List.mem_cons_self row rest)
  unfold copyMakeBorder
  rw [hcols]
  constructor
  · rw [List.length_append, List.length_append, List.length_replicate,
      List.length_replicate, List.length_map, hlen]
  · intro row hmem
    rcases List.mem_append.mp hmem with h1 | h2
    · rcases List.mem_append.mp h1 with ha | hb
      · rw [List.eq_of_mem_replicate ha, List.length_replicate]
      · obtain ⟨row0, hrow0, rfl⟩ := List.mem_map.mp hb
        rw [padRow_length, hrow row0 hrow0]
    · rw [List.eq_of_mem_replicate h2, List.length_replicate]

/-- The window at offset `(top, left)` of a constant-bordered image
recovers the original image. -/
theorem slice2d_copyMakeBorder (g : Image) (hh ww t b l r : Nat) (v : Int)
    (hg : IsRect g hh ww) :
    slice2d (copyMakeBorder g t b l r v) t hh l ww = g := by
  obtain ⟨hlen, hrow⟩ := hg
  unfold copyMakeBorder slice2d
  rw [List.append_assoc]
  rw [List.drop_left' (by rw [List.length_replicate])]
  rw [List.take_left' (by rw [List.length_map, hlen])]
  rw [List.map_map]
  have hid : ∀ row ∈ g,
      ((fun row => (row.drop l).take ww) ∘ padRow l r v) row = id row := by
    intro row hmem
    simp only [Function.comp, padRow, id]
    rw [List.append_assoc]
    rw [List.drop_left' (by rw [List.length_replicate])]
    rw [List.take_left' (hrow row hmem)]
  rw [List.map_congr_left hid, List.map_id]

theorem getD_replicate_zero (n m : Nat) :
    (List.replicate n (0 : Int)).getD m 0 = 0 := by
  rw [List.getD_eq_getElem?_getD, List.getElem?_replicate]
  split_ifs <;> rfl

theorem entry_replicate_blank (n m ln j : Nat) :
    ((List.replicate n (List.replicate ln (0 : Int))).getD m []).getD j 0 = 0 := by
  rw [List.getD_eq_getElem?_getD (List.replicate n (List.replicate ln (0 : Int))) m [],
    List.getElem?_replicate]
  split_ifs
  · simp only [Option.getD_some]
    exact getD_replicate_zero ln j
  · rfl

theorem getD_map_of_lt {α β : Type} [Inhabited β] (g : List α) (f : α → β)
    (k : Nat) (d d' : β) (da : α) (hk : k < g.length) :
    (g.map f).getD k d = f (g.getD k da) := by
  rw [List.getD_eq_getElem?_getD, List.getElem?_map,
    List.getD_eq_getElem?_getD, List.getElem?_eq_getElem hk]
  rfl

theorem getD_mem_of_lt {α : Type} (g : List α) (k : Nat) (d : α)
    (hk : k < g.length) : g.getD k d ∈ g := by
  rw [List.getD_eq_getElem?_getD, List.getElem?_eq_getElem hk]
  exact List.getElem_mem hk

/-- Every pixel of the constant zero border (above, below, left or right
of the interior window) is zero-valued. -/
theorem copyMakeBorder_border_zero (g : Image) (hh ww t b l r : Nat)
    (hg : IsRect g hh ww) (i j : Nat)
    (hborder : i < t ∨ t + hh ≤ i ∨ j < l ∨ l + ww ≤ j) :
    entryAt (copyMakeBorder g t b l r 0) i j = 0 := by
  obtain ⟨hlen, hrow⟩ := hg
  unfold entryAt copyMakeBorder
  by_cases hit : i < t
  · rw [List.append_assoc,
      List.getD_append _ _ _ _ (by rw [List.length_replicate]; exact hit)]
    exact entry_replicate_blank t i _ j
  · by_cases hib : t + hh ≤ i
    · rw [List.getD_append_right _ _ _ _
        (by rw [List.length_append, List.length_replicate, List.length_map, hlen]; exact hib)]
      exact entry_replicate_blank b _ _ j
    · -- the row is an interior padded row; the border condition is on `j`
      have hj : j < l ∨ l + ww ≤ j := by
        rcases hborder with h1 | h2 | h3 | h4
        · exact absurd h1 hit
        · exact absurd h2 hib
        · exact Or.inl h3
        · exact Or.inr h4
      rw [List.append_assoc,
        List.getD_append_right _ _ _ _ (by rw [List.length_replicate]; omega)]
      rw [List.length_replicate]
      rw [List.getD_append _ _ _ _
        (by rw [List.length_map, hlen]; omega)]
      rw [getD_map_of_lt g (padRow l r 0) (i - t) [] [] [] (by rw [hlen]; omega)]
      have hlenrow : (g.getD (i - t) []).length = ww :=
        hrow _ (getD_mem_of_lt g (i - t) [] (by rw [hlen]; omega))
      unfold padRow
      rcases hj with hj1 | hj2
      · rw [List.append_assoc,
          List.getD_append _ _ _ _ (by rw [List.length_replicate]; exact hj1)]
        exact getD_replicate_zero l j
      · rw [List.getD_append_right _ _ _ _
          (by rw [List.length_append, List.length_replicate, hlenrow]; exact hj2)]
        exact getD_replicate_zero r _

theorem boundingRect_pos (p : Point) (ps : List Point) :
    0 < (boundingRect (p :: ps)).w ∧ 0 < (boundingRect (p :: ps)).h := by
  unfold boundingRect
  exact ⟨Nat.succ_pos _, Nat.succ_pos _⟩

/-- The crop-and-pad step on an explicit bounding rectangle. -/
theorem regionRestrict_eq (g m : Image) (pts : List Point) (x y w h : Nat)
    (hbr : boundingRect pts = ⟨x, y, w, h⟩) :
    regionRestrict g m (some pts) =
      (copyMakeBorder (slice2d g y h x w) (h / 5) (h / 5) (w / 5) (w / 5) 0,
       copyMakeBorder (slice2d m y h x w) (h / 5) (h / 5) (w / 5) (w / 5) 0) := by
  simp only [regionRestrict]
  rw [hbr]

/-! ## Claim C6 -/

/-- Claim C6: when both mask and roi are supplied, with bounding rectangle
`(x,y,w,h)` of the roi lying inside the field, the un-padded interior of
the cropped output equals `field[y:y+h, x:x+w]` of the clamped field — the
clamp step is applied to the full field before the crop step. -/
theorem crop_interior_eq_clamped_slice (field : NDArray) (m : Image)
    (cmap : Option String) (bg : String) (minv maxv : Int) (p : Point)
    (ps : List Point) (axes : Bool) (x y w h R C : Nat) (ov : Image)
    (h2 : ndim field = 2)
    (hbr : boundingRect (p :: ps) = ⟨x, y, w, h⟩)
    (hg : IsRect (toGrid field) R C) (hy : y + h ≤ R) (hx : x + w ≤ C)
    (hov : resultOverlay
        (compose field (some m) cmap bg minv maxv (some (p :: ps)) axes)
      = some ov) :
    slice2d ov (h / 5) h (w / 5) w
      = slice2d (clampStep minv maxv (toGrid field)) y h x w := by
  unfold resultOverlay at hov
  rw [compose_some_eq field m cmap bg minv maxv (some (p :: ps)) axes h2] at hov
  rw [regionRestrict_eq (clampStep minv maxv (toGrid field)) m (p :: ps) x y w h hbr]
    at hov
  cases hres : resolveBackground bg
      (copyMakeBorder (slice2d (clampStep minv maxv (toGrid field)) y h x w)
        (h / 5) (h / 5) (w / 5) (w / 5) 0) with
  | error e =>
    rw [hres] at hov
    cases hov
  | ok bc =>
    rw [hres] at hov
    have hov2 : copyMakeBorder (slice2d (clampStep minv maxv (toGrid field)) y h x w)
        (h / 5) (h / 5) (w / 5) (w / 5) 0 = ov := by
      injection hov
    rw [← hov2]
    exact slice2d_copyMakeBorder _ h w _ _ _ _ 0
      (slice2d_isRect _ R C y h x w (clampStep_isRect minv maxv _ R C hg) hy hx)

/-- Claim C6 witness: a constant 5x5 field, rectangle `(0,0,5,5)`,
padding 1 on each side; the interior of the output overlay is the clamped
field window. -/
theorem crop_interior_eq_clamped_slice_witness :
    ndim (ofGrid (List.replicate 5 (List.replicate 5 (7 : Int)))) = 2
    ∧ boundingRect [(0, 0), (4, 4)] = ⟨0, 0, 5, 5⟩
    ∧ IsRect (toGrid (ofGrid (List.replicate 5 (List.replicate 5 (7 : Int))))) 5 5
    ∧ 0 + 5 ≤ 5 ∧ 0 + 5 ≤ 5
    ∧ resultOverlay
        (compose (ofGrid (List.replicate 5 (List.replicate 5 (7 : Int))))
          (some (List.replicate 5 (List.replicate 5 (1 : Int)))) none "black"
          0 255 (some [(0, 0), (4, 4)]) true)
      = some ([List.replicate 7 (0 : Int)] ++
          List.replicate 5 ((0 : Int) :: (List.replicate 5 (7 : Int) ++ [(0 : Int)])) ++
          [List.replicate 7 (0 : Int)])
    ∧ slice2d ([List.replicate 7 (0 : Int)] ++
          List.replicate 5 ((0 : Int) :: (List.replicate 5 (7 : Int) ++ [(0 : Int)])) ++
          [List.replicate 7 (0 : Int)]) (5 / 5) 5 (5 / 5) 5
      = slice2d (clampStep 0 255
          (toGrid (ofGrid (List.replicate 5 (List.replicate 5 (7 : Int)))))) 0 5 0 5 :=
  ⟨by decide, by decide, by decide, by decide, by decide, by decide,
    crop_interior_eq_clamped_slice
      (ofGrid (List.replicate 5 (List.replicate 5 (7 : Int))))
      (List.replicate 5 (List.replicate 5 (1 : Int))) none "black" 0 255
      (0, 0) [(4, 4)] true 0 0 5 5 5 5
      ([List.replicate 7 (0 : Int)] ++
        List.replicate 5 ((0 : Int) :: (List.replicate 5 (7 : Int) ++ [(0 : Int)])) ++
        [List.replicate 7 (0 : Int)])
      (by decide) (by decide) (by decide) (by decide) (by decide) (by decide)⟩

/-! ## Claim C7 -/

/-- Claim C7: when both mask and roi are supplied, the cropped field and
the cropped mask are each extended by exactly `floor(w/5)` columns on the
left and the right and `floor(h/5)` rows on the top and the bottom
(symmetric on all four sides), and every padded border pixel is zero. -/
theorem crop_padding_amount_and_zero_border (g m : Image) (p : Point)
    (ps : List Point) (x y w h Rg Cg Rm Cm : Nat)
    (hbr : boundingRect (p :: ps) = ⟨x, y, w, h⟩)
    (hg : IsRect g Rg Cg) (hm : IsRect m Rm Cm)
    (hyg : y + h ≤ Rg) (hxg : x + w ≤ Cg) (hym : y + h ≤ Rm) (hxm : x + w ≤ Cm) :
    IsRect (regionRestrict g m (some (p :: ps))).1
        (h + 2 * (h / 5)) (w + 2 * (w / 5))
    ∧ IsRect (regionRestrict g m (some (p :: ps))).2
        (h + 2 * (h / 5)) (w + 2 * (w / 5))
    ∧ (∀ i j, (i < h / 5 ∨ h / 5 + h ≤ i ∨ j < w / 5 ∨ w / 5 + w ≤ j) →
        entryAt (regionRestrict g m (some (p :: ps))).1 i j = 0
        ∧ entryAt (regionRestrict g m (some (p :: ps))).2 i j = 0) := by
  have hpos := boundingRect_pos p ps
  rw [hbr] at hpos
  have hposh : 0 < h := hpos.2
  rw [regionRestrict_eq g m (p :: ps) x y w h hbr]
  have hcg : IsRect (slice2d g y h x w) h w := slice2d_isRect g Rg Cg y h x w hg hyg hxg
  have hcm : IsRect (slice2d m y h x w) h w := slice2d_isRect m Rm Cm y h x w hm hym hxm
  have e1 : h / 5 + h + h / 5 = h + 2 * (h / 5) := by omega
  have e2 : w / 5 + w + w / 5 = w + 2 * (w / 5) := by omega
  refine ⟨?_, ?_, ?_⟩
  · rw [← e1, ← e2]
    exact copyMakeBorder_isRect _ h w _ _ _ _ 0 hcg hposh
  · rw [← e1, ← e2]
    exact copyMakeBorder_isRect _ h w _ _ _ _ 0 hcm hposh
  · intro i j hbord
    exact ⟨copyMakeBorder_border_zero _ h w _ _ _ _ hcg i j hbord,
      copyMakeBorder_border_zero _ h w _ _ _ _ hcm i j hbord⟩

/-- Claim C7 witness: rectangle `(1,1,5,5)` inside 6x6 buffers gives
padding 1 on each side and zero border pixels. -/
theorem crop_padding_amount_and_zero_border_witness :
    boundingRect [(1, 1), (5, 5)] = ⟨1, 1, 5, 5⟩
    ∧ IsRect (List.replicate 6 (List.replicate 6 (7 : Int))) 6 6
    ∧ IsRect (List.replicate 6 (List.replicate 6 (1 : Int))) 6 6
    ∧ 1 + 5 ≤ 6 ∧ 1 + 5 ≤ 6
    ∧ IsRect (regionRestrict (List.replicate 6 (List.replicate 6 (7 : Int)))
          (List.replicate 6 (List.replicate 6 (1 : Int)))
          (some [(1, 1), (5, 5)])).1 (5 + 2 * (5 / 5)) (5 + 2 * (5 / 5))
    ∧ entryAt (regionRestrict (List.replicate 6 (List.replicate 6 (7 : Int)))
          (List.replicate 6 (List.replicate 6 (1 : Int)))
          (some [(1, 1), (5, 5)])).2 0 3 = 0 :=
  ⟨by decide, by decide, by decide, by decide, by decide,
    (crop_padding_amount_and_zero_border
      (List.replicate 6 (List.replicate 6 (7 : Int)))
      (List.replicate 6 (List.replicate 6 (1 : Int)))
      (1, 1) [(5, 5)] 1 1 5 5 6 6 6 6
      (by decide) (by decide) (by decide) (by decide) (by decide)
      (by decide) (by decide)).1,
    ((crop_padding_amount_and_zero_border
      (List.replicate 6 (List.replicate 6 (7 : Int)))
      (List.replicate 6 (List.replicate 6 (1 : Int)))
      (1, 1) [(5, 5)] 1 1 5 5 6 6 6 6
      (by decide) (by decide) (by decide) (by decide) (by decide)
      (by decide) (by decide)).2.2 0 3 (Or.inl (by decide))).2⟩

/-! ## Claim C10 -/

/-- Claim C10 (implicit): when mask and field have the same shape and the
roi's bounding rectangle `(x,y,w,h)` lies inside them, the
cropped-and-padded field and the cropped-and-padded mask have identical
shapes, namely `(h + 2*floor(h/5))` by `(w + 2*floor(w/5))` — the
field/mask shape agreement is preserved by the crop-and-pad step. -/
theorem crop_pad_shape_agreement (g m : Image) (p : Point) (ps : List Point)
    (x y w h R C : Nat)
    (hbr : boundingRect (p :: ps) = ⟨x, y, w, h⟩)
    (hg : IsRect g R C) (hm : IsRect m R C) (hy : y + h ≤ R) (hx : x + w ≤ C) :
    IsRect (regionRestrict g m (some (p :: ps))).1
        (h + 2 * (h / 5)) (w + 2 * (w / 5))
    ∧ IsRect (regionRestrict g m (some (p :: ps))).2
        (h + 2 * (h / 5)) (w + 2 * (w / 5)) := by
  have hall := crop_padding_amount_and_zero_border g m p ps x y w h R C R C
    hbr hg hm hy hx hy hx
  exact ⟨hall.1, hall.2.1⟩

/-- Claim C10 witness: the shape agreement at the concrete 6x6 buffers. -/
theorem crop_pad_shape_agreement_witness :
    boundingRect [(1, 1), (5, 5)] = ⟨1, 1, 5, 5⟩
    ∧ IsRect (List.replicate 6 (List.replicate 6 (9 : Int))) 6 6
    ∧ IsRect (List.replicate 6 (List.replicate 6 (0 : Int))) 6 6
    ∧ 1 + 5 ≤ 6 ∧ 1 + 5 ≤ 6
    ∧ (IsRect (regionRestrict (List.replicate 6 (List.replicate 6 (9 : Int)))
          (List.replicate 6 (List.replicate 6 (0 : Int)))
          (some [(1, 1), (5, 5)])).1 (5 + 2 * (5 / 5)) (5 + 2 * (5 / 5))
      ∧ IsRect (regionRestrict (List.replicate 6 (List.replicate 6 (9 : Int)))
          (List.replicate 6 (List.replicate 6 (0 : Int)))
          (some [(1, 1), (5, 5)])).2 (5 + 2 * (5 / 5)) (5 + 2 * (5 / 5))) :=
  ⟨by decide, by decide, by decide, by decide, by decide,
    crop_pad_shape_agreement
      (List.replicate 6 (List.replicate 6 (9 : Int)))
      (List.replicate 6 (List.replicate 6 (0 : Int)))
      (1, 1) [(5, 5)] 1 1 5 5 6 6
      (by decide) (by decide) (by decide) (by decide) (by decide)⟩

/-! ## Claim C5 -/

theorem boolAt_maHide (m : Image) (i j : Nat) (hi : i < m.length)
    (hj : j < (m.getD i []).length) :
    boolAt (maHide m) i j = (entryAt m i j == 0) := by
  unfold boolAt maHide entryAt
  rw [List.getD_eq_getElem?_getD (m.map _) i [], List.getElem?_map,
    List.getD_eq_getElem?_getD m i [], List.getElem?_eq_getElem hi]
  simp only [Option.map_some', Option.getD_some]
  have hj' : j < m[i].length := by
    rw [List.getD_eq_getElem?_getD m i [], List.getElem?_eq_getElem hi] at hj
    exact hj
  rw [List.getD_eq_getElem?_getD (m[i].map _) j false, List.getElem?_map,
    List.getElem?_eq_getElem hj',
    List.getD_eq_getElem?_getD m[i] j 0, List.getElem?_eq_getElem hj']
  simp only [Option.map_some', Option.getD_some]

theorem renderAt_some (bkgI : Option Image) (bkgC : Option String) (ovl : Image)
    (hid : List (List Bool)) (cm : Option String) (ti : String) (cb ax : Bool)
    (i j : Nat) :
    renderAt ⟨bkgI, bkgC, ovl, some hid, cm, ti, cb, ax⟩ i j
      = if boolAt hid i j
        then .bkgPix bkgC (entryAt (bkgI.getD []) i j)
        else .overlayPix cm (entryAt ovl i j) := rfl

/-- `compose` on the mask path when the background selector resolves. -/
theorem compose_some_ok (field : NDArray) (m : Image) (cmap : Option String)
    (background : String) (minValue maxValue : Int) (obj : Option (List Point))
    (axes : Bool) (bc : Image × String) (h2 : ndim field = 2)
    (hres : resolveBackground background
      (regionRestrict (clampStep minValue maxValue (toGrid field)) m obj).1 = .ok bc) :
    compose field (some m) cmap background minValue maxValue obj axes =
      ⟨.ok ⟨some bc.1, some bc.2,
          (regionRestrict (clampStep minValue maxValue (toGrid field)) m obj).1,
          some (maHide
            (regionRestrict (clampStep minValue maxValue (toGrid field)) m obj).2),
          cmap, "Pseudocolored image", true, axes⟩,
        ofGrid (clampStep minValue maxValue (toGrid field)), some m⟩ := by
  rw [compose_some_eq field m cmap background minValue maxValue obj axes h2, hres]

/-- Claim C5: when a mask is supplied (and no roi), the overlay's
per-pixel visibility equals the mask with binary occlusion: wherever the
mask is nonzero the rendered pixel is the clamped field sample colorized
through the user colormap, occluding the background; wherever the mask is
zero the overlay is hidden and the background layer alone is visible. -/
theorem mask_binary_occlusion (field : NDArray) (m : Image)
    (cmap : Option String) (bg : String) (minv maxv : Int) (axes : Bool)
    (c : Composite) (i j : Nat) (h2 : ndim field = 2)
    (hok : (compose field (some m) cmap bg minv maxv none axes).result = .ok c)
    (hi : i < m.length) (hj : j < (m.getD i []).length) :
    (entryAt m i j ≠ 0 →
      renderAt c i j
        = .overlayPix cmap (entryAt (clampStep minv maxv (toGrid field)) i j))
    ∧ (entryAt m i j = 0 →
      renderAt c i j = .bkgPix c.bkgCmap (entryAt (c.bkgImg.getD []) i j)) := by
  cases hres : resolveBackground bg
      (regionRestrict (clampStep minv maxv (toGrid field)) m none).1 with
  | error e =>
    rw [compose_some_eq field m cmap bg minv maxv none axes h2, hres] at hok
    cases hok
  | ok bc =>
    rw [compose_some_ok field m cmap bg minv maxv none axes bc h2 hres] at hok
    have hc : (⟨some bc.1, some bc.2,
        (regionRestrict (clampStep minv maxv (toGrid field)) m none).1,
        some (maHide (regionRestrict (clampStep minv maxv (toGrid field)) m none).2),
        cmap, "Pseudocolored image", true, axes⟩ : Composite) = c := by
      injection hok
    subst hc
    have hnone : regionRestrict (clampStep minv maxv (toGrid field)) m none
        = (clampStep minv maxv (toGrid field), m) := rfl
    have hb : boolAt (maHide m) i j = (entryAt m i j == 0) := boolAt_maHide m i j hi hj
    constructor
    · intro hne
      have hfalse : (entryAt m i j == 0) = false := beq_eq_false_iff_ne.mpr hne
      rw [renderAt_some]
      simp [hnone, hb, hfalse]
    · intro heq
      have htrue : (entryAt m i j == 0) = true := beq_iff_eq.mpr heq
      rw [renderAt_some]
      simp [hnone, hb, htrue]

/-- Claim C5 witness: a two-pixel example — the masked pixel shows the
clamped, colorized sample; the unmasked pixel shows the black background. -/
theorem mask_binary_occlusion_witness :
    ndim (ofGrid [[10, 300]]) = 2
    ∧ (compose (ofGrid [[10, 300]]) (some [[1, 0]]) none "black" 0 255 none
        true).result
      = .ok ⟨some [[0, 0]], some "gray", [[10, 255]], some [[false, true]], none,
          "Pseudocolored image", true, true⟩
    ∧ 0 < [[(1 : Int), 0]].length ∧ 1 < (([[(1 : Int), 0]]).getD 0 []).length
    ∧ renderAt (⟨some [[0, 0]], some "gray", [[10, 255]], some [[false, true]], none,
          "Pseudocolored image", true, true⟩ : Composite) 0 0
      = .overlayPix none 10
    ∧ renderAt (⟨some [[0, 0]], some "gray", [[10, 255]], some [[false, true]], none,
          "Pseudocolored image", true, true⟩ : Composite) 0 1
      = .bkgPix (some "gray") 0 :=
  ⟨rfl, rfl, by decide, by decide,
    (mask_binary_occlusion (ofGrid [[10, 300]]) [[1, 0]] none "black" 0 255 true
      _ 0 0 rfl rfl (by decide) (by decide)).1 (by decide),
    (mask_binary_occlusion (ofGrid [[10, 300]]) [[1, 0]] none "black" 0 255 true
      _ 0 1 rfl rfl (by decide) (by decide)).2 (by decide)⟩

/-! ## Claim C8 -/

theorem constLike_add255 (g : Image) :
    (constLike g 0).map (List.map (fun v => v + 255)) = constLike g 255 := by
  unfold constLike
  rw [map_map_grid]
  apply map_grid_congr
  intro v
  simp only [Function.comp]
  norm_num

theorem resolveBackground_black (g : Image) :
    resolveBackground "black" g = .ok (constLike g 0, "gray") := rfl

theorem resolveBackground_white (g : Image) :
    resolveBackground "white" g
      = .ok ((constLike g 0).map (List.map (fun v => v + 255)), "gray_r") := rfl

theorem resolveBackground_image (g : Image) :
    resolveBackground "image" g = .ok (g, "gray") := rfl

/-- Claim C8: with a mask supplied, the White background layer is
uniformly filled with the maximum sample value (255) and is rendered with
the reversed gray palette `"gray_r"`, while the Image and Black selectors
use the plain `"gray"` palette (Image reuses the processed field itself,
Black a uniformly zero layer). -/
theorem white_background_layer (field : NDArray) (m : Image)
    (cmap : Option String) (minv maxv : Int) (obj : Option (List Point))
    (axes : Bool) (cw ci cb : Composite) (h2 : ndim field = 2)
    (hw : (compose field (some m) cmap "white" minv maxv obj axes).result = .ok cw)
    (hi : (compose field (some m) cmap "image" minv maxv obj axes).result = .ok ci)
    (hb : (compose field (some m) cmap "black" minv maxv obj axes).result = .ok cb) :
    (cw.bkgImg = some (constLike cw.overlay 255) ∧ cw.bkgCmap = some "gray_r")
    ∧ (ci.bkgImg = some ci.overlay ∧ ci.bkgCmap = some "gray")
    ∧ (cb.bkgImg = some (constLike cb.overlay 0) ∧ cb.bkgCmap = some "gray") := by
  rw [compose_some_ok field m cmap "white" minv maxv obj axes _ h2
    (resolveBackground_white _)] at hw
  rw [compose_some_ok field m cmap "image" minv maxv obj axes _ h2
    (resolveBackground_image _)] at hi
  rw [compose_some_ok field m cmap "black" minv maxv obj axes _ h2
    (resolveBackground_black _)] at hb
  have hcw := Except.ok.inj hw
  have hci := Except.ok.inj hi
  have hcb := Except.ok.inj hb
  subst hcw hci hcb
  refine ⟨⟨?_, rfl⟩, ⟨rfl, rfl⟩, ⟨rfl, rfl⟩⟩
  exact congrArg some (constLike_add255 _)

/-- Claim C8 witness: the three background selectors on a concrete call. -/
theorem white_background_layer_witness :
    ndim (ofGrid [[5]]) = 2
    ∧ (compose (ofGrid [[5]]) (some [[1]]) none "white" 0 255 none true).result
      = .ok ⟨some [[255]], some "gray_r", [[5]], some [[false]], none,
          "Pseudocolored image", true, true⟩
    ∧ (compose (ofGrid [[5]]) (some [[1]]) none "image" 0 255 none true).result
      = .ok ⟨some [[5]], some "gray", [[5]], some [[false]], none,
          "Pseudocolored image", true, true⟩
    ∧ (compose (ofGrid [[5]]) (some [[1]]) none "black" 0 255 none true).result
      = .ok ⟨some [[0]], some "gray", [[5]], some [[false]], none,
          "Pseudocolored image", true, true⟩
    ∧ ((some [[(255 : Int)]]
          = some (constLike ([[(5 : Int)]] : Image) 255) ∧ some "gray_r" = some "gray_r")
      ∧ (some [[(5 : Int)]] = some ([[(5 : Int)]] : Image) ∧ some "gray" = some "gray")
      ∧ (some [[(0 : Int)]]
          = some (constLike ([[(5 : Int)]] : Image) 0) ∧ some "gray" = some "gray")) :=
  ⟨rfl, rfl, rfl, rfl,
    white_background_layer (ofGrid [[5]]) [[1]] none 0 255 none true
      ⟨some [[255]], some "gray_r", [[5]], some [[false]], none,
        "Pseudocolored image", true, true⟩
      ⟨some [[5]], some "gray", [[5]], some [[false]], none,
        "Pseudocolored image", true, true⟩
      ⟨some [[0]], some "gray", [[5]], some [[false]], none,
        "Pseudocolored image", true, true⟩
      rfl rfl rfl rfl⟩

end Pseudocolor
